import Mathlib

/-!
Verification of the virtual game-controller bridge in `dlls/dinput/gamepad.c`.

The development shallowly embeds the pure logic of the C file: the axis
scaler (`scale_value`, `scale_axis_value`), the dual-variant mapping engine
(`gamepad_handle_input`), the live-state decoder (`gamepad_read`), and the
discovery request path (`get_gamepad_request`, `gamepad_enum_device`).
C `LONG`/`short`/`char` values are represented as `Int`; wire buffers are
byte maps `Nat → Int` read through explicit little-endian decoders.  The
platform helpers that the file calls but does not define (`MulDiv`, libm
`round`) are modelled from the spec's description of them (rounded
multiply-then-divide, ties away from zero).  External collaborators
(object-index resolution, `queue_event`, the event sink) are represented by
carrying the object's type/instance pair in each emitted event and by
returning the list of queued events.
-/

set_option maxHeartbeats 1000000

namespace Gamepad

/-! ### Constants from gamepad.c -/

def REQUEST_CODE_GET_GAMEPAD : Int := 8
def REQUEST_CODE_GET_GAMEPAD_STATE : Int := 9
def REQUEST_CODE_RELEASE_GAMEPAD : Int := 10

def FLAG_DINPUT_MAPPER_STANDARD : Nat := 0x01
def FLAG_DINPUT_MAPPER_XINPUT : Nat := 0x02
def FLAG_INPUT_TYPE_XINPUT : Nat := 0x04
def FLAG_INPUT_TYPE_DINPUT : Nat := 0x08

def IDX_BUTTON_A : Nat := 0
def IDX_BUTTON_B : Nat := 1
def IDX_BUTTON_X : Nat := 2
def IDX_BUTTON_Y : Nat := 3
def IDX_BUTTON_L1 : Nat := 4
def IDX_BUTTON_R1 : Nat := 5
def IDX_BUTTON_L2 : Nat := 10
def IDX_BUTTON_R2 : Nat := 11
def IDX_BUTTON_SELECT : Nat := 6
def IDX_BUTTON_START : Nat := 7
def IDX_BUTTON_L3 : Nat := 8
def IDX_BUTTON_R3 : Nat := 9

/-- Per-axis calibration record (`struct object_properties` of the device
framework; the fields used by gamepad.c). -/
structure ObjectProperties where
  logical_min : Int
  logical_max : Int
  range_min : Int
  range_max : Int
  deadzone : Int
  saturation : Int
  granularity : Int
deriving DecidableEq, Repr

/-- Modelled from the spec: rounded division, the common core of the
platform primitives `MulDiv` and libm `round` that gamepad.c calls but this
repository does not define.  For a positive divisor `d`, `rdivAway n d`
rounds `n / d` to the nearest integer with ties resolved away from zero
("multiply-then-divide-with-rounding", spec section 4.3).  Note `Int`
division `/` is Euclidean division, which for a positive divisor is floor
division, so `(n + d / 2) / d` on a nonnegative `n` is the usual rounding
trick. -/
def rdivAway (n d : Int) : Int :=
  if 0 ≤ n then (n + d / 2) / d
  else -((-n + d / 2) / d)

/-- Modelled from the spec: the platform primitive `MulDiv a b c` —
`a * b / c` rounded to nearest, ties away from zero (spec section 4.3);
every call site in gamepad.c uses a positive divisor. -/
def MulDiv (a b c : Int) : Int := rdivAway (a * b) c

/-- Embeds `scale_value` (gamepad.c lines 193-202): affine map of the
logical range onto the physical range by rounded cross-multiplication. -/
def scale_value (value : Int) (p : ObjectProperties) : Int :=
  p.range_min + MulDiv (value - p.logical_min) (p.range_max - p.range_min)
      (p.logical_max - p.logical_min)

/-- Physical center as computed by `scale_axis_value` (lines 212-213):
`phy_max >> 1` when `range_min == 0` (arithmetic shift = floor division),
otherwise `round((phy_min + phy_max) / 2.0)` (ties away from zero; the
doubles involved are exact). -/
def phy_ctr (p : ObjectProperties) : Int :=
  if p.range_min = 0 then p.range_max / 2 else rdivAway (p.range_min + p.range_max) 2

/-- Logical center as computed by `scale_axis_value` (lines 214-215). -/
def log_ctr (p : ObjectProperties) : Int :=
  if p.logical_min = 0 then p.logical_max / 2 else rdivAway (p.logical_min + p.logical_max) 2

/-- Negative-half deadzone edge: line 220, `MulDiv(log_min - log_ctr, deadzone, 10000)`
(assigned to the local `log_max` in the `value <= 0` branch). -/
def dead_edge_neg (p : ObjectProperties) : Int :=
  MulDiv (p.logical_min - log_ctr p) p.deadzone 10000

/-- Negative-half saturation edge: line 221 (assigned to the local `log_min`). -/
def sat_edge_neg (p : ObjectProperties) : Int :=
  MulDiv (p.logical_min - log_ctr p) p.saturation 10000

/-- Positive-half deadzone edge: line 226 (assigned to the local `log_min`). -/
def dead_edge_pos (p : ObjectProperties) : Int :=
  MulDiv (p.logical_max - log_ctr p) p.deadzone 10000

/-- Positive-half saturation edge: line 227 (assigned to the local `log_max`). -/
def sat_edge_pos (p : ObjectProperties) : Int :=
  MulDiv (p.logical_max - log_ctr p) p.saturation 10000

/-- Embeds `scale_axis_value` (gamepad.c lines 204-234).  The source shifts
the input by the logical center (`value -= log_ctr`), rebinds the local
`log_min`/`log_max`/`phy_min`/`phy_max` to the edge values of the selected
signed half (named `dead_edge_*` / `sat_edge_*` / `phy_ctr` here), then
clamps or interpolates. -/
def scale_axis_value (value : Int) (p : ObjectProperties) : Int :=
  if value - log_ctr p ≤ 0 then
    -- lines 218-223: log_max := deadzone edge, log_min := saturation edge,
    -- phy_max := phy_ctr; then lines 231-233.
    if value - log_ctr p ≤ sat_edge_neg p then p.range_min
    else if dead_edge_neg p ≤ value - log_ctr p then phy_ctr p
    else p.range_min +
      MulDiv (value - log_ctr p - sat_edge_neg p) (phy_ctr p - p.range_min)
        (dead_edge_neg p - sat_edge_neg p)
  else
    -- lines 224-229: log_min := deadzone edge, log_max := saturation edge,
    -- phy_min := phy_ctr; then lines 231-233.
    if value - log_ctr p ≤ dead_edge_pos p then phy_ctr p
    else if sat_edge_pos p ≤ value - log_ctr p then p.range_max
    else phy_ctr p +
      MulDiv (value - log_ctr p - dead_edge_pos p) (p.range_max - phy_ctr p)
        (sat_edge_pos p - dead_edge_pos p)

/-- Default calibration installed by `init_object_properties`
(lines 443-459): the struct is `calloc`ed, so `deadzone` is 0. -/
def default_props : ObjectProperties :=
  { logical_min := -32768, logical_max := 32767, range_min := 0,
    range_max := 65535, deadzone := 0, saturation := 10000, granularity := 1 }

/-- Calibration with a degenerate logical range `0..1`, used to exhibit the
edge-coincidence behaviour of `scale_axis_value`: both edges of the negative
half collapse onto the logical center, so the center falls on the
saturation-clamp check. -/
def pEdge : ObjectProperties :=
  { logical_min := 0, logical_max := 1, range_min := 0, range_max := 65535,
    deadzone := 0, saturation := 10000, granularity := 1 }

/-! ### Arithmetic lemmas about the rounded division -/

lemma rdivAway_nonneg {n d : Int} (hn : 0 ≤ n) (hd : 0 < d) :
    0 ≤ rdivAway n d := by
  unfold rdivAway
  rw [if_pos hn]
  exact Int.ediv_nonneg (by omega) (by omega)

lemma rdivAway_nonpos {n d : Int} (hn : n ≤ 0) (hd : 0 < d) :
    rdivAway n d ≤ 0 := by
  unfold rdivAway
  split_ifs with h
  · have hn0 : n = 0 := le_antisymm hn h
    subst hn0
    have : (0 + d / 2) / d = 0 := by
      rw [zero_add]
      exact Int.ediv_eq_zero_of_lt (by omega) (by omega)
    omega
  · have : 0 ≤ (-n + d / 2) / d := Int.ediv_nonneg (by omega) (by omega)
    omega

lemma rdivAway_mono {d : Int} (hd : 0 < d) {n m : Int} (h : n ≤ m) :
    rdivAway n d ≤ rdivAway m d := by
  unfold rdivAway
  split_ifs with h1 h2 h2
  · exact Int.ediv_le_ediv hd (by omega)
  · omega
  · have a1 : 0 ≤ (-n + d / 2) / d := Int.ediv_nonneg (by omega) (by omega)
    have a2 : 0 ≤ (m + d / 2) / d := Int.ediv_nonneg (by omega) (by omega)
    omega
  · have := Int.ediv_le_ediv hd (show -m + d / 2 ≤ -n + d / 2 by omega)
    omega

lemma log_ctr_bounds (p : ObjectProperties) (h : p.logical_min < p.logical_max) :
    p.logical_min ≤ log_ctr p ∧ log_ctr p ≤ p.logical_max := by
  unfold log_ctr rdivAway
  split_ifs <;> omega

lemma dead_edge_neg_nonpos (p : ObjectProperties)
    (h : p.logical_min < p.logical_max) (hdz : 0 ≤ p.deadzone) :
    dead_edge_neg p ≤ 0 := by
  have hb := log_ctr_bounds p h
  exact rdivAway_nonpos
    (mul_nonpos_iff.mpr (Or.inr ⟨by omega, hdz⟩)) (by norm_num)

/-! ### Claim C1 -/

/-- C1 (counterexample): the claim quantifies over every `ObjectProperties`
with `logical_min < logical_max`, `range_min < range_max` and
`0 ≤ deadzone < saturation ≤ 10000`, but with the degenerate logical range
`0..1` both computed edges of the negative half are 0, the center input hits
the saturation clamp first, and the raw logical center maps to `range_min`
instead of the physical center. -/
theorem scale_axis_center_claim_false :
    pEdge.logical_min < pEdge.logical_max ∧ pEdge.range_min < pEdge.range_max ∧
    0 ≤ pEdge.deadzone ∧ pEdge.deadzone < pEdge.saturation ∧
    pEdge.saturation ≤ 10000 ∧
    scale_axis_value (log_ctr pEdge) pEdge ≠ phy_ctr pEdge := by
  decide

/-- C1 (amended): for every `ObjectProperties` with
`logical_min < logical_max`, `range_min < range_max` and
`0 ≤ deadzone < saturation ≤ 10000` whose computed per-half edges are
non-degenerate (the negative-half saturation edge lies strictly below the
negative-half deadzone edge, and the positive-half deadzone edge strictly
below the positive-half saturation edge, the latter being at least 1),
`scale_axis_value` maps the raw logical center exactly to the physical
center, maps every input at or beyond the saturation edge of either signed
half exactly to `range_min` resp. `range_max`, and maps every input at or
inside the deadzone edge of either half exactly to the center-side physical
bound (the physical center). -/
theorem scale_axis_value_edges (p : ObjectProperties)
    (h1 : p.logical_min < p.logical_max) (h2 : p.range_min < p.range_max)
    (hdz : 0 ≤ p.deadzone) (hds : p.deadzone < p.saturation)
    (hs : p.saturation ≤ 10000)
    (hneg : sat_edge_neg p < dead_edge_neg p)
    (hpos : dead_edge_pos p < sat_edge_pos p)
    (hpos1 : 1 ≤ sat_edge_pos p) :
    scale_axis_value (log_ctr p) p = phy_ctr p
    ∧ (∀ x, x - log_ctr p ≤ sat_edge_neg p → scale_axis_value x p = p.range_min)
    ∧ (∀ x, sat_edge_pos p ≤ x - log_ctr p → scale_axis_value x p = p.range_max)
    ∧ (∀ x, dead_edge_neg p ≤ x - log_ctr p → x - log_ctr p ≤ 0 →
        scale_axis_value x p = phy_ctr p)
    ∧ (∀ x, 0 ≤ x - log_ctr p → x - log_ctr p ≤ dead_edge_pos p →
        scale_axis_value x p = phy_ctr p) := by
  have hdn : dead_edge_neg p ≤ 0 := dead_edge_neg_nonpos p h1 hdz
  refine ⟨?_, ?_, ?_, ?_, ?_⟩
  · unfold scale_axis_value
    rw [if_pos (by omega), if_neg (by omega), if_pos (by omega)]
  · intro x hx
    unfold scale_axis_value
    rw [if_pos (by omega), if_pos hx]
  · intro x hx
    unfold scale_axis_value
    rw [if_neg (by omega), if_neg (by omega), if_pos hx]
  · intro x h1x h2x
    unfold scale_axis_value
    rw [if_pos h2x, if_neg (by omega), if_pos h1x]
  · intro x h0 hdp
    rcases eq_or_lt_of_le h0 with h0' | h0'
    · unfold scale_axis_value
      rw [if_pos (by omega), if_neg (by omega), if_pos (by omega)]
    · unfold scale_axis_value
      rw [if_neg (by omega), if_pos hdp]

/-- C1 (witness): the amended theorem applied to the default calibration of
`init_object_properties` (deadzone 0, saturation 10000): the raw minimum
clamps to 0, the raw center -1 maps to the physical center 32767, and the
raw maximum clamps to 65535. -/
theorem scale_axis_value_edges_witness :
    scale_axis_value (-32768) default_props = 0 ∧
    scale_axis_value (-1) default_props = 32767 ∧
    scale_axis_value 32767 default_props = 65535 := by
  have h := scale_axis_value_edges default_props (by decide) (by decide)
    (by decide) (by decide) (by decide) (by decide) (by decide) (by decide)
  exact ⟨h.2.1 (-32768) (by decide), h.1, h.2.2.1 32767 (by decide)⟩

/-! ### Claim C5 -/

/-- C5: for every `ObjectProperties` with `logical_min < logical_max` and
`range_min < range_max`, `scale_value` is monotonic non-decreasing in its
input and maps `logical_min` exactly to `range_min` and `logical_max`
exactly to `range_max` (the rounded cross-multiplication term is 0 at
`logical_min` and `range_max - range_min` at `logical_max`). -/
theorem scale_value_monotone_endpoints (p : ObjectProperties)
    (h1 : p.logical_min < p.logical_max) (h2 : p.range_min < p.range_max) :
    (∀ v w, v ≤ w → scale_value v p ≤ scale_value w p)
    ∧ scale_value p.logical_min p = p.range_min
    ∧ scale_value p.logical_max p = p.range_max := by
  refine ⟨?_, ?_, ?_⟩
  · intro v w hvw
    unfold scale_value MulDiv
    have := rdivAway_mono (d := p.logical_max - p.logical_min) (by omega)
      (mul_le_mul_of_nonneg_right
        (show v - p.logical_min ≤ w - p.logical_min by omega)
        (show (0 : Int) ≤ p.range_max - p.range_min by omega))
    omega
  · unfold scale_value MulDiv rdivAway
    rw [sub_self, zero_mul, if_pos le_rfl, zero_add]
    have : (p.logical_max - p.logical_min) / 2 / (p.logical_max - p.logical_min) = 0 :=
      Int.ediv_eq_zero_of_lt (by omega) (by omega)
    omega
  · unfold scale_value MulDiv rdivAway
    rw [if_pos (mul_nonneg (by omega) (by omega))]
    have hc : (p.logical_max - p.logical_min) * (p.range_max - p.range_min) +
        (p.logical_max - p.logical_min) / 2
        = (p.logical_max - p.logical_min) / 2 +
          (p.logical_max - p.logical_min) * (p.range_max - p.range_min) := by
      ring
    rw [hc, Int.add_mul_ediv_left _ _ (by omega)]
    have : (p.logical_max - p.logical_min) / 2 / (p.logical_max - p.logical_min) = 0 :=
      Int.ediv_eq_zero_of_lt (by omega) (by omega)
    omega

/-- C5 (witness): the default calibration maps -32768 to 0 and 32767 to
65535, and is monotone between 0 and 1. -/
theorem scale_value_monotone_endpoints_witness :
    scale_value (-32768) default_props = 0 ∧
    scale_value 32767 default_props = 65535 ∧
    scale_value 0 default_props ≤ scale_value 1 default_props := by
  have h := scale_value_monotone_endpoints default_props (by decide) (by decide)
  exact ⟨h.2.1, h.2.2, h.1 0 1 (by decide)⟩

/-! ### Mapping engine (`gamepad_handle_input`, lines 236-401)

The stored previous raw sample is `struct gamepad_state` (`impl->state`);
the calibrated snapshot is the `DIJOYSTATE` fields that the two mapping
variants write.  Object identity is represented by the pair
(object type, instance number): the source turns that pair into a device
object index through the external collaborator
`dinput_device_object_index_from_id` and passes the index both to
`queue_event` and to the `object_properties` lookup; the resolver being an
external fixed injection, the embedding keys the per-axis calibration table
`props` by the axis instance number and tags each event with the type and
instance. -/

/-- Stored previous raw sample, `struct gamepad_state` (lines 72-82). -/
structure GamepadState where
  buttons : Int
  dpad : Int
  thumb_lx : Int
  thumb_ly : Int
  thumb_rx : Int
  thumb_ry : Int
  thumb_lz : Int
  thumb_rz : Int
deriving DecidableEq, Repr

/-- Object type of an emitted event: `DIDFT_ABSAXIS`, `DIDFT_BUTTON` or
`DIDFT_POV`. -/
inductive ObjKind where
  | absaxis
  | button
  | pov
deriving DecidableEq, Repr

/-- One queued change event: object type and instance (the source resolves
these to an object index through the external collaborator), new value,
timestamp and sequence number (spec section 3, "Event"). -/
structure Event where
  kind : ObjKind
  inst : Nat
  value : Int
  time : Int
  seq : Nat
deriving DecidableEq, Repr

/-- The `DIJOYSTATE` fields written by gamepad.c.  `rgdwPOV0` holds
`rgdwPOV[0]`; the all-ones DWORD used for "centered" is written as -1. -/
structure DIJOYSTATE where
  lX : Int
  lY : Int
  lZ : Int
  lRx : Int
  lRy : Int
  lRz : Int
  rgbButtons : Nat → Int
  rgdwPOV0 : Int

/-- Result of one `gamepad_handle_input` (or `gamepad_read`) call: the new
stored sample, the new calibrated snapshot, the post-call value of the
device's `evsequence` counter, the queued events in emission order, and the
`notify` flag that triggers `SetEvent`. -/
structure HandleResult where
  st : GamepadState
  joy : DIJOYSTATE
  evseq : Nat
  events : List Event
  notify : Bool

/-- POV hat value, lines 317 and 394: `dpad != -1 ? dpad * 4500 : -1`. -/
def pov_value (dpad : Int) : Int :=
  if dpad ≠ -1 then dpad * 4500 else -1

/-- Button slot value, lines 306 and 383: `(buttons & (1 << i)) ? 0x80 : 0x00`.
Bit `i` of the (possibly negative, two's complement) `buttons` word is
`(buttons / 2^i) % 2` with floor division. -/
def button_value (buttons : Int) (i : Nat) : Int :=
  if buttons / 2 ^ i % 2 = 1 then 0x80 else 0x00

/-- Bit-position-to-slot permutation of the standard variant's button loop
(`switch (i)` at lines 290-304, driven by the `IDX_BUTTON_*` constants).
The `else 0` branch is unreachable for `i < 12`. -/
def std_slot (i : Nat) : Nat :=
  if i = IDX_BUTTON_A then 1
  else if i = IDX_BUTTON_B then 2
  else if i = IDX_BUTTON_X then 0
  else if i = IDX_BUTTON_Y then 3
  else if i = IDX_BUTTON_L1 then 4
  else if i = IDX_BUTTON_R1 then 5
  else if i = IDX_BUTTON_L2 then 6
  else if i = IDX_BUTTON_R2 then 7
  else if i = IDX_BUTTON_SELECT then 8
  else if i = IDX_BUTTON_START then 9
  else if i = IDX_BUTTON_L3 then 10
  else if i = IDX_BUTTON_R3 then 11
  else 0

/-- Write one `rgbButtons` slot. -/
def set_button (j : Nat) (v : Int) (joy : DIJOYSTATE) : DIJOYSTATE :=
  { joy with rgbButtons := fun n => if n = j then v else joy.rgbButtons n }

/-- `rgbButtons` writes of the standard variant's button loop
(lines 288-309). -/
def std_apply_buttons (buttons : Int) (joy : DIJOYSTATE) : DIJOYSTATE :=
  (List.range 12).foldl
    (fun acc i => set_button (std_slot i) (button_value buttons i) acc) joy

/-- Events queued by the standard variant's button loop, in loop order. -/
def std_button_events (buttons : Int) (time : Int) (seq : Nat) : List Event :=
  (List.range 12).map
    (fun i => ⟨.button, std_slot i, button_value buttons i, time, seq⟩)

/-- `rgbButtons` writes of the Xbox-style variant's button loop
(lines 378-388): identity bit-to-slot mapping over 10 buttons. -/
def xin_apply_buttons (buttons : Int) (joy : DIJOYSTATE) : DIJOYSTATE :=
  (List.range 10).foldl
    (fun acc i => set_button i (button_value buttons i) acc) joy

/-- Events queued by the Xbox-style variant's button loop, in loop order. -/
def xin_button_events (buttons : Int) (time : Int) (seq : Nat) : List Event :=
  (List.range 10).map
    (fun i => ⟨.button, i, button_value buttons i, time, seq⟩)

/-! The single interleaved pass of each variant is decomposed into its
stored-sample, snapshot and event components.  Each component keeps the
source's per-field change conditions (always tested against the pre-call
stored sample, which the source mutates only after its own field's test)
and the source's field order. -/

/-- Stored-sample update of the standard variant (lines 247-321): each
consumed field is written when it differs; `thumb_lz`/`thumb_rz` are not
consumed by this variant. -/
def std_update_state (st : GamepadState)
    (lx ly rx ry bt dp : Int) : GamepadState :=
  let st1 := if lx ≠ st.thumb_lx then { st with thumb_lx := lx } else st
  let st2 := if ly ≠ st1.thumb_ly then { st1 with thumb_ly := ly } else st1
  let st3 := if rx ≠ st2.thumb_rx then { st2 with thumb_rx := rx } else st2
  let st4 := if ry ≠ st3.thumb_ry then { st3 with thumb_ry := ry } else st3
  let st5 := if bt ≠ st4.buttons then { st4 with buttons := bt } else st4
  if dp ≠ st5.dpad then { st5 with dpad := dp } else st5

/-- `DIJOYSTATE` update of the standard variant: X, Y, Z, Rz from
lx, ly, rx, ry (axis instances 0-3), the 12 permuted buttons, the hat. -/
def std_update_joy (props : Nat → ObjectProperties) (st : GamepadState)
    (joy : DIJOYSTATE) (lx ly rx ry bt dp : Int) : DIJOYSTATE :=
  let j1 := if lx ≠ st.thumb_lx then
    { joy with lX := scale_axis_value lx (props 0) } else joy
  let j2 := if ly ≠ st.thumb_ly then
    { j1 with lY := scale_axis_value ly (props 1) } else j1
  let j3 := if rx ≠ st.thumb_rx then
    { j2 with lZ := scale_axis_value rx (props 2) } else j2
  let j4 := if ry ≠ st.thumb_ry then
    { j3 with lRz := scale_axis_value ry (props 3) } else j3
  let j5 := if bt ≠ st.buttons then std_apply_buttons bt j4 else j4
  if dp ≠ st.dpad then { j5 with rgdwPOV0 := pov_value dp } else j5

/-- Events queued by the standard variant, in source order. -/
def std_events (props : Nat → ObjectProperties) (time : Int) (seq : Nat)
    (st : GamepadState) (lx ly rx ry bt dp : Int) : List Event :=
  (if lx ≠ st.thumb_lx then
    [⟨.absaxis, 0, scale_axis_value lx (props 0), time, seq⟩] else []) ++
  (if ly ≠ st.thumb_ly then
    [⟨.absaxis, 1, scale_axis_value ly (props 1), time, seq⟩] else []) ++
  (if rx ≠ st.thumb_rx then
    [⟨.absaxis, 2, scale_axis_value rx (props 2), time, seq⟩] else []) ++
  (if ry ≠ st.thumb_ry then
    [⟨.absaxis, 3, scale_axis_value ry (props 3), time, seq⟩] else []) ++
  (if bt ≠ st.buttons then std_button_events bt time seq else []) ++
  (if dp ≠ st.dpad then [⟨.pov, 0, pov_value dp, time, seq⟩] else [])

/-- The merged trigger value of the Xbox-style variant (lines 365-369): a
changed `lz` takes priority over a simultaneously changed `rz`. -/
def xin_z_value (st : GamepadState) (lz rz : Int) : Int :=
  if lz ≠ st.thumb_lz then MulDiv lz (-32768) 255 else MulDiv rz 32767 255

/-- Stored-sample update of the Xbox-style variant (lines 322-397); both
trigger fields are stored whenever either changed (lines 373-374). -/
def xin_update_state (st : GamepadState)
    (lx ly rx ry lz rz bt dp : Int) : GamepadState :=
  let st1 := if lx ≠ st.thumb_lx then { st with thumb_lx := lx } else st
  let st2 := if ly ≠ st1.thumb_ly then { st1 with thumb_ly := ly } else st1
  let st3 := if rx ≠ st2.thumb_rx then { st2 with thumb_rx := rx } else st2
  let st4 := if ry ≠ st3.thumb_ry then { st3 with thumb_ry := ry } else st3
  let st5 := if lz ≠ st4.thumb_lz ∨ rz ≠ st4.thumb_rz then
    { st4 with thumb_lz := lz, thumb_rz := rz } else st4
  let st6 := if bt ≠ st5.buttons then { st5 with buttons := bt } else st5
  if dp ≠ st6.dpad then { st6 with dpad := dp } else st6

/-- `DIJOYSTATE` update of the Xbox-style variant: X, Y (instances 0-1),
Rx, Ry (instances 3-4), merged Z (instance 2), 10 buttons, the hat. -/
def xin_update_joy (props : Nat → ObjectProperties) (st : GamepadState)
    (joy : DIJOYSTATE) (lx ly rx ry lz rz bt dp : Int) : DIJOYSTATE :=
  let j1 := if lx ≠ st.thumb_lx then
    { joy with lX := scale_axis_value lx (props 0) } else joy
  let j2 := if ly ≠ st.thumb_ly then
    { j1 with lY := scale_axis_value ly (props 1) } else j1
  let j3 := if rx ≠ st.thumb_rx then
    { j2 with lRx := scale_axis_value rx (props 3) } else j2
  let j4 := if ry ≠ st.thumb_ry then
    { j3 with lRy := scale_axis_value ry (props 4) } else j3
  let j5 := if lz ≠ st.thumb_lz ∨ rz ≠ st.thumb_rz then
    { j4 with lZ := scale_axis_value (xin_z_value st lz rz) (props 2) } else j4
  let j6 := if bt ≠ st.buttons then xin_apply_buttons bt j5 else j5
  if dp ≠ st.dpad then { j6 with rgdwPOV0 := pov_value dp } else j6

/-- Events queued by the Xbox-style variant, in source order. -/
def xin_events (props : Nat → ObjectProperties) (time : Int) (seq : Nat)
    (st : GamepadState) (lx ly rx ry lz rz bt dp : Int) : List Event :=
  (if lx ≠ st.thumb_lx then
    [⟨.absaxis, 0, scale_axis_value lx (props 0), time, seq⟩] else []) ++
  (if ly ≠ st.thumb_ly then
    [⟨.absaxis, 1, scale_axis_value ly (props 1), time, seq⟩] else []) ++
  (if rx ≠ st.thumb_rx then
    [⟨.absaxis, 3, scale_axis_value rx (props 3), time, seq⟩] else []) ++
  (if ry ≠ st.thumb_ry then
    [⟨.absaxis, 4, scale_axis_value ry (props 4), time, seq⟩] else []) ++
  (if lz ≠ st.thumb_lz ∨ rz ≠ st.thumb_rz then
    [⟨.absaxis, 2, scale_axis_value (xin_z_value st lz rz) (props 2), time, seq⟩]
   else []) ++
  (if bt ≠ st.buttons then xin_button_events bt time seq else []) ++
  (if dp ≠ st.dpad then [⟨.pov, 0, pov_value dp, time, seq⟩] else [])

/-- Embeds `gamepad_handle_input` (lines 236-401).  The call captures the
current `evsequence` and post-increments it once (line 245); the active
variant is chosen by the capability flags, standard taking precedence
(lines 247 and 322); `notify` is set exactly when some field fired, which
is exactly when at least one event was queued; parameter order follows the
source (`lx, ly, rx, ry, lz, rz, buttons, dpad`). -/
def gamepad_handle_input (input_type : Nat) (props : Nat → ObjectProperties)
    (time : Int) (st : GamepadState) (joy : DIJOYSTATE) (evseq : Nat)
    (lx ly rx ry lz rz bt dp : Int) : HandleResult :=
  let seq := evseq
  if input_type &&& FLAG_DINPUT_MAPPER_STANDARD ≠ 0 then
    let evs := std_events props time seq st lx ly rx ry bt dp
    ⟨std_update_state st lx ly rx ry bt dp,
     std_update_joy props st joy lx ly rx ry bt dp,
     evseq + 1, evs, !evs.isEmpty⟩
  else if input_type &&& FLAG_DINPUT_MAPPER_XINPUT ≠ 0 then
    let evs := xin_events props time seq st lx ly rx ry lz rz bt dp
    ⟨xin_update_state st lx ly rx ry lz rz bt dp,
     xin_update_joy props st joy lx ly rx ry lz rz bt dp,
     evseq + 1, evs, !evs.isEmpty⟩
  else ⟨st, joy, evseq + 1, [], false⟩

/-- All-zero stored sample (the `calloc`ed initial `impl->state`). -/
def stZero : GamepadState := ⟨0, 0, 0, 0, 0, 0, 0, 0⟩

/-- All-zero calibrated snapshot. -/
def joyZero : DIJOYSTATE := ⟨0, 0, 0, 0, 0, 0, fun _ => 0, 0⟩

/-! ### Helper lemmas about the event lists -/

lemma std_button_events_seq {bt t : Int} {s : Nat} {e : Event}
    (h : e ∈ std_button_events bt t s) : e.seq = s := by
  simp only [std_button_events, List.mem_map] at h
  obtain ⟨i, -, rfl⟩ := h
  rfl

lemma xin_button_events_seq {bt t : Int} {s : Nat} {e : Event}
    (h : e ∈ xin_button_events bt t s) : e.seq = s := by
  simp only [xin_button_events, List.mem_map] at h
  obtain ⟨i, -, rfl⟩ := h
  rfl

lemma std_events_seq {props : Nat → ObjectProperties} {t : Int} {s : Nat}
    {st : GamepadState} {lx ly rx ry bt dp : Int} {e : Event}
    (he : e ∈ std_events props t s st lx ly rx ry bt dp) : e.seq = s := by
  simp only [std_events, List.mem_append] at he
  rcases he with (((((he | he) | he) | he) | he) | he)
  · split at he <;> simp_all
  · split at he <;> simp_all
  · split at he <;> simp_all
  · split at he <;> simp_all
  · split at he
    · exact std_button_events_seq he
    · simp at he
  · split at he <;> simp_all

lemma xin_events_seq {props : Nat → ObjectProperties} {t : Int} {s : Nat}
    {st : GamepadState} {lx ly rx ry lz rz bt dp : Int} {e : Event}
    (he : e ∈ xin_events props t s st lx ly rx ry lz rz bt dp) : e.seq = s := by
  simp only [xin_events, List.mem_append] at he
  rcases he with ((((((he | he) | he) | he) | he) | he) | he)
  · split at he <;> simp_all
  · split at he <;> simp_all
  · split at he <;> simp_all
  · split at he <;> simp_all
  · split at he <;> simp_all
  · split at he
    · exact xin_button_events_seq he
    · simp at he
  · split at he <;> simp_all

/-! ### Claim C2 -/

/-- C2 (counterexample): standard variant, previous sample all zero, new
sample differing only in the button bitmask (value 1), pre-call sequence
counter 5.  The call emits 12 events but the counter advances by 1, not by
12, and all 12 events carry the same sequence number 5 — so the counter
does not advance by the number of events emitted and sequence numbers do
not strictly increase across the emitted events. -/
def cexC2 : HandleResult :=
  gamepad_handle_input 1 (fun _ => default_props) 0 stZero joyZero 5
    0 0 0 0 0 0 1 0

theorem handle_input_seq_claim_false :
    cexC2.events.length = 12 ∧ cexC2.evseq = 6 ∧
    cexC2.evseq ≠ 5 + cexC2.events.length ∧
    ∀ e ∈ cexC2.events, e.seq = 5 := by
  decide

/-- C2 (amended): for every stored previous sample and every new sample
differing from it in exactly one field consumed by the active variant, one
call of `gamepad_handle_input` emits exactly one event (for the button
bitmask: one event per button slot of the variant, 12 standard / 10
Xbox-style); in the standard variant the trigger fields `lz`/`rz` are not
consumed and changing only them emits no event.  The per-device sequence
counter advances by exactly one per call — regardless of how many events
were emitted, including zero — and every event of a call carries the
pre-call counter value, so sequence numbers are non-decreasing across the
device's lifetime and strictly increase between calls.  A call with a
sample identical to the stored sample emits zero events. -/
theorem handle_input_delta_events :
    (∀ it props t st joy n lx ly rx ry lz rz bt dp,
      (gamepad_handle_input it props t st joy n lx ly rx ry lz rz bt dp).evseq
        = n + 1)
    ∧ (∀ it props t st joy n lx ly rx ry lz rz bt dp,
      ∀ e ∈ (gamepad_handle_input it props t st joy n lx ly rx ry lz rz bt dp).events,
      e.seq = n)
    ∧ (∀ it props t st joy n,
      (gamepad_handle_input it props t st joy n st.thumb_lx st.thumb_ly
        st.thumb_rx st.thumb_ry st.thumb_lz st.thumb_rz st.buttons st.dpad).events
        = [])
    ∧ (∀ it props t st joy n lx, it &&& FLAG_DINPUT_MAPPER_STANDARD ≠ 0 →
      lx ≠ st.thumb_lx →
      (gamepad_handle_input it props t st joy n lx st.thumb_ly st.thumb_rx
        st.thumb_ry st.thumb_lz st.thumb_rz st.buttons st.dpad).events.length = 1)
    ∧ (∀ it props t st joy n ly, it &&& FLAG_DINPUT_MAPPER_STANDARD ≠ 0 →
      ly ≠ st.thumb_ly →
      (gamepad_handle_input it props t st joy n st.thumb_lx ly st.thumb_rx
        st.thumb_ry st.thumb_lz st.thumb_rz st.buttons st.dpad).events.length = 1)
    ∧ (∀ it props t st joy n rx, it &&& FLAG_DINPUT_MAPPER_STANDARD ≠ 0 →
      rx ≠ st.thumb_rx →
      (gamepad_handle_input it props t st joy n st.thumb_lx st.thumb_ly rx
        st.thumb_ry st.thumb_lz st.thumb_rz st.buttons st.dpad).events.length = 1)
    ∧ (∀ it props t st joy n ry, it &&& FLAG_DINPUT_MAPPER_STANDARD ≠ 0 →
      ry ≠ st.thumb_ry →
      (gamepad_handle_input it props t st joy n st.thumb_lx st.thumb_ly
        st.thumb_rx ry st.thumb_lz st.thumb_rz st.buttons st.dpad).events.length = 1)
    ∧ (∀ it props t st joy n bt, it &&& FLAG_DINPUT_MAPPER_STANDARD ≠ 0 →
      bt ≠ st.buttons →
      (gamepad_handle_input it props t st joy n st.thumb_lx st.thumb_ly
        st.thumb_rx st.thumb_ry st.thumb_lz st.thumb_rz bt st.dpad).events.length = 12)
    ∧ (∀ it props t st joy n dp, it &&& FLAG_DINPUT_MAPPER_STANDARD ≠ 0 →
      dp ≠ st.dpad →
      (gamepad_handle_input it props t st joy n st.thumb_lx st.thumb_ly
        st.thumb_rx st.thumb_ry st.thumb_lz st.thumb_rz st.buttons dp).events.length = 1)
    ∧ (∀ it props t st joy n lz rz, it &&& FLAG_DINPUT_MAPPER_STANDARD ≠ 0 →
      (gamepad_handle_input it props t st joy n st.thumb_lx st.thumb_ly
        st.thumb_rx st.thumb_ry lz rz st.buttons st.dpad).events = [])
    ∧ (∀ it props t st joy n lx, it &&& FLAG_DINPUT_MAPPER_STANDARD = 0 →
      it &&& FLAG_DINPUT_MAPPER_XINPUT ≠ 0 → lx ≠ st.thumb_lx →
      (gamepad_handle_input it props t st joy n lx st.thumb_ly st.thumb_rx
        st.thumb_ry st.thumb_lz st.thumb_rz st.buttons st.dpad).events.length = 1)
    ∧ (∀ it props t st joy n ly, it &&& FLAG_DINPUT_MAPPER_STANDARD = 0 →
      it &&& FLAG_DINPUT_MAPPER_XINPUT ≠ 0 → ly ≠ st.thumb_ly →
      (gamepad_handle_input it props t st joy n st.thumb_lx ly st.thumb_rx
        st.thumb_ry st.thumb_lz st.thumb_rz st.buttons st.dpad).events.length = 1)
    ∧ (∀ it props t st joy n rx, it &&& FLAG_DINPUT_MAPPER_STANDARD = 0 →
      it &&& FLAG_DINPUT_MAPPER_XINPUT ≠ 0 → rx ≠ st.thumb_rx →
      (gamepad_handle_input it props t st joy n st.thumb_lx st.thumb_ly rx
        st.thumb_ry st.thumb_lz st.thumb_rz st.buttons st.dpad).events.length = 1)
    ∧ (∀ it props t st joy n ry, it &&& FLAG_DINPUT_MAPPER_STANDARD = 0 →
      it &&& FLAG_DINPUT_MAPPER_XINPUT ≠ 0 → ry ≠ st.thumb_ry →
      (gamepad_handle_input it props t st joy n st.thumb_lx st.thumb_ly
        st.thumb_rx ry st.thumb_lz st.thumb_rz st.buttons st.dpad).events.length = 1)
    ∧ (∀ it props t st joy n lz, it &&& FLAG_DINPUT_MAPPER_STANDARD = 0 →
      it &&& FLAG_DINPUT_MAPPER_XINPUT ≠ 0 → lz ≠ st.thumb_lz →
      (gamepad_handle_input it props t st joy n st.thumb_lx st.thumb_ly
        st.thumb_rx st.thumb_ry lz st.thumb_rz st.buttons st.dpad).events.length = 1)
    ∧ (∀ it props t st joy n rz, it &&& FLAG_DINPUT_MAPPER_STANDARD = 0 →
      it &&& FLAG_DINPUT_MAPPER_XINPUT ≠ 0 → rz ≠ st.thumb_rz →
      (gamepad_handle_input it props t st joy n st.thumb_lx st.thumb_ly
        st.thumb_rx st.thumb_ry st.thumb_lz rz st.buttons st.dpad).events.length = 1)
    ∧ (∀ it props t st joy n bt, it &&& FLAG_DINPUT_MAPPER_STANDARD = 0 →
      it &&& FLAG_DINPUT_MAPPER_XINPUT ≠ 0 → bt ≠ st.buttons →
      (gamepad_handle_input it props t st joy n st.thumb_lx st.thumb_ly
        st.thumb_rx st.thumb_ry st.thumb_lz st.thumb_rz bt st.dpad).events.length = 10)
    ∧ (∀ it props t st joy n dp, it &&& FLAG_DINPUT_MAPPER_STANDARD = 0 →
      it &&& FLAG_DINPUT_MAPPER_XINPUT ≠ 0 → dp ≠ st.dpad →
      (gamepad_handle_input it props t st joy n st.thumb_lx st.thumb_ly
        st.thumb_rx st.thumb_ry st.thumb_lz st.thumb_rz st.buttons dp).events.length = 1) := by
  refine ⟨?_, ?_, ?_, ?_, ?_, ?_, ?_, ?_, ?_, ?_, ?_, ?_, ?_, ?_, ?_, ?_, ?_, ?_⟩
  · intro it props t st joy n lx ly rx ry lz rz bt dp
    simp only [gamepad_handle_input]
    split_ifs <;> rfl
  · intro it props t st joy n lx ly rx ry lz rz bt dp e he
    simp only [gamepad_handle_input] at he
    split_ifs at he
    · exact std_events_seq he
    · exact xin_events_seq he
    · simp at he
  · intro it props t st joy n
    simp only [gamepad_handle_input]
    split_ifs <;> simp [std_events, xin_events]
  · intro it props t st joy n lx h hlx
    simp [gamepad_handle_input, h, std_events, hlx]
  · intro it props t st joy n ly h hly
    simp [gamepad_handle_input, h, std_events, hly]
  · intro it props t st joy n rx h hrx
    simp [gamepad_handle_input, h, std_events, hrx]
  · intro it props t st joy n ry h hry
    simp [gamepad_handle_input, h, std_events, hry]
  · intro it props t st joy n bt h hbt
    simp [gamepad_handle_input, h, std_events, hbt, std_button_events]
  · intro it props t st joy n dp h hdp
    simp [gamepad_handle_input, h, std_events, hdp]
  · intro it props t st joy n lz rz h
    simp [gamepad_handle_input, h, std_events]
  · intro it props t st joy n lx h0 h2 hlx
    simp [gamepad_handle_input, h0, h2, xin_events, hlx]
  · intro it props t st joy n ly h0 h2 hly
    simp [gamepad_handle_input, h0, h2, xin_events, hly]
  · intro it props t st joy n rx h0 h2 hrx
    simp [gamepad_handle_input, h0, h2, xin_events, hrx]
  · intro it props t st joy n ry h0 h2 hry
    simp [gamepad_handle_input, h0, h2, xin_events, hry]
  · intro it props t st joy n lz h0 h2 hlz
    simp [gamepad_handle_input, h0, h2, xin_events, hlz]
  · intro it props t st joy n rz h0 h2 hrz
    simp [gamepad_handle_input, h0, h2, xin_events, hrz]
  · intro it props t st joy n bt h0 h2 hbt
    simp [gamepad_handle_input, h0, h2, xin_events, hbt, xin_button_events]
  · intro it props t st joy n dp h0 h2 hdp
    simp [gamepad_handle_input, h0, h2, xin_events, hdp]

/-- C2 (witness): at the standard variant with the all-zero stored sample,
a change of `lx` alone emits one event, a resend of the identical sample
emits zero events, and both calls advance the counter from 5 to 6. -/
theorem handle_input_delta_events_witness :
    (gamepad_handle_input 1 (fun _ => default_props) 0 stZero joyZero 5
      7 0 0 0 0 0 0 0).events.length = 1 ∧
    (gamepad_handle_input 1 (fun _ => default_props) 0 stZero joyZero 5
      0 0 0 0 0 0 0 0).events = [] ∧
    (gamepad_handle_input 1 (fun _ => default_props) 0 stZero joyZero 5
      7 0 0 0 0 0 0 0).evseq = 6 := by
  refine ⟨handle_input_delta_events.2.2.2.1 1 (fun _ => default_props) 0 stZero
      joyZero 5 7 (by decide) (by decide),
    handle_input_delta_events.2.2.1 1 (fun _ => default_props) 0 stZero joyZero 5,
    handle_input_delta_events.1 1 (fun _ => default_props) 0 stZero joyZero 5
      7 0 0 0 0 0 0 0⟩

/-! ### Claim C4 -/

/-- C4: in the standard variant, for every button-bitmask value differing
from the stored bitmask (other fields unchanged), all 12 slots are
recomputed — one event per slot, in loop order over the bit positions, each
value `0x80` iff the source bit is set — with the bit-to-slot permutation
given by the `IDX_BUTTON_*` bit positions:
A→1, B→2, X→0, Y→3, L1→4, R1→5, L2→6, R2→7, Select→8, Start→9, L3→10,
R3→11. -/
theorem std_buttons_permutation (it : Nat) (props : Nat → ObjectProperties)
    (t : Int) (st : GamepadState) (joy : DIJOYSTATE) (n : Nat) (bt : Int)
    (h : it &&& FLAG_DINPUT_MAPPER_STANDARD ≠ 0) (hbt : bt ≠ st.buttons) :
    (gamepad_handle_input it props t st joy n st.thumb_lx st.thumb_ly
      st.thumb_rx st.thumb_ry st.thumb_lz st.thumb_rz bt st.dpad).events =
      [⟨.button, std_slot 0, button_value bt 0, t, n⟩,
       ⟨.button, std_slot 1, button_value bt 1, t, n⟩,
       ⟨.button, std_slot 2, button_value bt 2, t, n⟩,
       ⟨.button, std_slot 3, button_value bt 3, t, n⟩,
       ⟨.button, std_slot 4, button_value bt 4, t, n⟩,
       ⟨.button, std_slot 5, button_value bt 5, t, n⟩,
       ⟨.button, std_slot 6, button_value bt 6, t, n⟩,
       ⟨.button, std_slot 7, button_value bt 7, t, n⟩,
       ⟨.button, std_slot 8, button_value bt 8, t, n⟩,
       ⟨.button, std_slot 9, button_value bt 9, t, n⟩,
       ⟨.button, std_slot 10, button_value bt 10, t, n⟩,
       ⟨.button, std_slot 11, button_value bt 11, t, n⟩]
    ∧ (∀ i, i < 12 →
        (gamepad_handle_input it props t st joy n st.thumb_lx st.thumb_ly
          st.thumb_rx st.thumb_ry st.thumb_lz st.thumb_rz bt st.dpad).joy.rgbButtons
            (std_slot i) = button_value bt i)
    ∧ std_slot IDX_BUTTON_A = 1 ∧ std_slot IDX_BUTTON_B = 2
    ∧ std_slot IDX_BUTTON_X = 0 ∧ std_slot IDX_BUTTON_Y = 3
    ∧ std_slot IDX_BUTTON_L1 = 4 ∧ std_slot IDX_BUTTON_R1 = 5
    ∧ std_slot IDX_BUTTON_L2 = 6 ∧ std_slot IDX_BUTTON_R2 = 7
    ∧ std_slot IDX_BUTTON_SELECT = 8 ∧ std_slot IDX_BUTTON_START = 9
    ∧ std_slot IDX_BUTTON_L3 = 10 ∧ std_slot IDX_BUTTON_R3 = 11 := by
  have hev : (gamepad_handle_input it props t st joy n st.thumb_lx st.thumb_ly
      st.thumb_rx st.thumb_ry st.thumb_lz st.thumb_rz bt st.dpad).events
      = std_button_events bt t n := by
    simp [gamepad_handle_input, h, std_events, hbt]
  have hjoy : (gamepad_handle_input it props t st joy n st.thumb_lx st.thumb_ly
      st.thumb_rx st.thumb_ry st.thumb_lz st.thumb_rz bt st.dpad).joy
      = std_apply_buttons bt joy := by
    simp [gamepad_handle_input, h, std_update_joy, hbt]
  refine ⟨?_, ?_, rfl, rfl, rfl, rfl, rfl, rfl, rfl, rfl, rfl, rfl, rfl, rfl⟩
  · rw [hev]
    rfl
  · intro i hi
    rw [hjoy]
    interval_cases i <;> rfl

/-- C4 (witness): bitmask 5 (bits 0 and 2 set) from the all-zero sample:
12 events; slot 1 (from bit 0 = A) and slot 0 (from bit 2 = X) read 0x80,
slot 2 (from bit 1 = B) reads 0. -/
theorem std_buttons_permutation_witness :
    (gamepad_handle_input 1 (fun _ => default_props) 0 stZero joyZero 0
      stZero.thumb_lx stZero.thumb_ly stZero.thumb_rx stZero.thumb_ry
      stZero.thumb_lz stZero.thumb_rz 5 stZero.dpad).events.length = 12 ∧
    (gamepad_handle_input 1 (fun _ => default_props) 0 stZero joyZero 0
      stZero.thumb_lx stZero.thumb_ly stZero.thumb_rx stZero.thumb_ry
      stZero.thumb_lz stZero.thumb_rz 5 stZero.dpad).joy.rgbButtons 1 = 0x80 ∧
    (gamepad_handle_input 1 (fun _ => default_props) 0 stZero joyZero 0
      stZero.thumb_lx stZero.thumb_ly stZero.thumb_rx stZero.thumb_ry
      stZero.thumb_lz stZero.thumb_rz 5 stZero.dpad).joy.rgbButtons 0 = 0x80 ∧
    (gamepad_handle_input 1 (fun _ => default_props) 0 stZero joyZero 0
      stZero.thumb_lx stZero.thumb_ly stZero.thumb_rx stZero.thumb_ry
      stZero.thumb_lz stZero.thumb_rz 5 stZero.dpad).joy.rgbButtons 2 = 0 := by
  have hp := std_buttons_permutation 1 (fun _ => default_props) 0 stZero joyZero
    0 5 (by decide) (by decide)
  refine ⟨by rw [hp.1]; rfl, ?_, ?_, ?_⟩
  · have := hp.2.1 0 (by norm_num)
    rw [show std_slot 0 = 1 from rfl] at this
    rw [this]
    decide
  · have := hp.2.1 2 (by norm_num)
    rw [show std_slot 2 = 0 from rfl] at this
    rw [this]
    decide
  · have := hp.2.1 1 (by norm_num)
    rw [show std_slot 1 = 2 from rfl] at this
    rw [this]
    decide

/-! ### Claim C8 -/

/-- C8: in both mapping variants, a dpad change (other fields unchanged)
emits exactly one POV event and stores the POV value, where a raw dpad in
0..7 yields `dpad * 4500` hundredths of a degree and raw -1 yields -1
(centered). -/
theorem pov_mapping :
    (∀ it props t st joy n dp, it &&& FLAG_DINPUT_MAPPER_STANDARD ≠ 0 →
      dp ≠ st.dpad →
      (gamepad_handle_input it props t st joy n st.thumb_lx st.thumb_ly
        st.thumb_rx st.thumb_ry st.thumb_lz st.thumb_rz st.buttons dp).events
        = [⟨.pov, 0, pov_value dp, t, n⟩] ∧
      (gamepad_handle_input it props t st joy n st.thumb_lx st.thumb_ly
        st.thumb_rx st.thumb_ry st.thumb_lz st.thumb_rz st.buttons dp).joy.rgdwPOV0
        = pov_value dp)
    ∧ (∀ it props t st joy n dp, it &&& FLAG_DINPUT_MAPPER_STANDARD = 0 →
      it &&& FLAG_DINPUT_MAPPER_XINPUT ≠ 0 → dp ≠ st.dpad →
      (gamepad_handle_input it props t st joy n st.thumb_lx st.thumb_ly
        st.thumb_rx st.thumb_ry st.thumb_lz st.thumb_rz st.buttons dp).events
        = [⟨.pov, 0, pov_value dp, t, n⟩] ∧
      (gamepad_handle_input it props t st joy n st.thumb_lx st.thumb_ly
        st.thumb_rx st.thumb_ry st.thumb_lz st.thumb_rz st.buttons dp).joy.rgdwPOV0
        = pov_value dp)
    ∧ (∀ dp : Int, 0 ≤ dp → dp ≤ 7 → pov_value dp = dp * 4500)
    ∧ pov_value (-1) = -1 := by
  refine ⟨?_, ?_, ?_, rfl⟩
  · intro it props t st joy n dp h hdp
    constructor
    · simp [gamepad_handle_input, h, std_events, hdp]
    · simp [gamepad_handle_input, h, std_update_joy, hdp]
  · intro it props t st joy n dp h0 h2 hdp
    constructor
    · simp [gamepad_handle_input, h0, h2, xin_events, hdp]
    · simp [gamepad_handle_input, h0, h2, xin_update_joy, hdp]
  · intro dp h0 h7
    rw [pov_value, if_pos (by omega)]

/-- C8 (witness): standard variant, dpad 2 from the all-zero sample gives
POV 9000; Xbox-style variant, dpad change to -1 from stored dpad 3 gives
POV -1. -/
theorem pov_mapping_witness :
    (gamepad_handle_input 1 (fun _ => default_props) 0 stZero joyZero 0
      0 0 0 0 0 0 0 2).joy.rgdwPOV0 = 9000 ∧
    (gamepad_handle_input 2 (fun _ => default_props) 0
      ⟨0, 3, 0, 0, 0, 0, 0, 0⟩ joyZero 0 0 0 0 0 0 0 0 (-1)).joy.rgdwPOV0 = -1 := by
  constructor
  · have h := (pov_mapping.1 1 (fun _ => default_props) 0 stZero joyZero 0 2
      (by decide) (by decide)).2
    have h2 : (gamepad_handle_input 1 (fun _ => default_props) 0 stZero joyZero 0
        0 0 0 0 0 0 0 2).joy.rgdwPOV0 = pov_value 2 := h
    rw [h2]
    exact pov_mapping.2.2.1 2 (by norm_num) (by norm_num)
  · have h := (pov_mapping.2.1 2 (fun _ => default_props) 0
      ⟨0, 3, 0, 0, 0, 0, 0, 0⟩ joyZero 0 (-1) (by decide) (by decide) (by decide)).2
    have h2 : (gamepad_handle_input 2 (fun _ => default_props) 0
        ⟨0, 3, 0, 0, 0, 0, 0, 0⟩ joyZero 0 0 0 0 0 0 0 0 (-1)).joy.rgdwPOV0
        = pov_value (-1) := h
    rw [h2]
    exact pov_mapping.2.2.2

/-! ### Claim C3 -/

/-- C3: in the Xbox-style variant (other fields unchanged), whenever the
new `lz` differs from the stored `lz` the merged Z axis is set to
`scale_axis_value (MulDiv lz (-32768) 255)` — regardless of whether `rz`
changed in the same tick — and exactly one Z event is emitted; when only
`rz` differs, Z is set to `scale_axis_value (MulDiv rz 32767 255)` with one
Z event (left-trigger priority). -/
theorem xinput_z_merge :
    (∀ it props t st joy n lz rz, it &&& FLAG_DINPUT_MAPPER_STANDARD = 0 →
      it &&& FLAG_DINPUT_MAPPER_XINPUT ≠ 0 → lz ≠ st.thumb_lz →
      (gamepad_handle_input it props t st joy n st.thumb_lx st.thumb_ly
        st.thumb_rx st.thumb_ry lz rz st.buttons st.dpad).events
        = [⟨.absaxis, 2, scale_axis_value (MulDiv lz (-32768) 255) (props 2), t, n⟩] ∧
      (gamepad_handle_input it props t st joy n st.thumb_lx st.thumb_ly
        st.thumb_rx st.thumb_ry lz rz st.buttons st.dpad).joy.lZ
        = scale_axis_value (MulDiv lz (-32768) 255) (props 2))
    ∧ (∀ it props t st joy n rz, it &&& FLAG_DINPUT_MAPPER_STANDARD = 0 →
      it &&& FLAG_DINPUT_MAPPER_XINPUT ≠ 0 → rz ≠ st.thumb_rz →
      (gamepad_handle_input it props t st joy n st.thumb_lx st.thumb_ly
        st.thumb_rx st.thumb_ry st.thumb_lz rz st.buttons st.dpad).events
        = [⟨.absaxis, 2, scale_axis_value (MulDiv rz 32767 255) (props 2), t, n⟩] ∧
      (gamepad_handle_input it props t st joy n st.thumb_lx st.thumb_ly
        st.thumb_rx st.thumb_ry st.thumb_lz rz st.buttons st.dpad).joy.lZ
        = scale_axis_value (MulDiv rz 32767 255) (props 2)) := by
  constructor
  · intro it props t st joy n lz rz h0 h2 hlz
    constructor
    · simp [gamepad_handle_input, h0, h2, xin_events, xin_z_value, hlz]
    · simp [gamepad_handle_input, h0, h2, xin_update_joy, xin_z_value, hlz]
  · intro it props t st joy n rz h0 h2 hrz
    constructor
    · simp [gamepad_handle_input, h0, h2, xin_events, xin_z_value, hrz]
    · simp [gamepad_handle_input, h0, h2, xin_update_joy, xin_z_value, hrz]

/-- C3 (witness): the spec scenario — Xbox-style variant, previous
lz=0 rz=0, new sample lz=10 rz=10 in the same tick: exactly one Z event,
whose value is derived from lz only. -/
theorem xinput_z_merge_witness :
    (gamepad_handle_input 2 (fun _ => default_props) 0 stZero joyZero 0
      0 0 0 0 10 10 0 0).events
      = [⟨.absaxis, 2, scale_axis_value (MulDiv 10 (-32768) 255) default_props, 0, 0⟩] ∧
    (gamepad_handle_input 2 (fun _ => default_props) 0 stZero joyZero 0
      0 0 0 0 10 10 0 0).events.length = 1 := by
  have h := (xinput_z_merge.1 2 (fun _ => default_props) 0 stZero joyZero 0
    10 10 (by decide) (by decide) (by decide)).1
  have h2 : (gamepad_handle_input 2 (fun _ => default_props) 0 stZero joyZero 0
      0 0 0 0 10 10 0 0).events
      = [⟨.absaxis, 2, scale_axis_value (MulDiv 10 (-32768) 255) default_props, 0, 0⟩] := h
  exact ⟨h2, by rw [h2]; rfl⟩

/-! ### Claim C10 -/

/-- C10: in the Xbox-style variant, when both `lz` and `rz` differ from the
stored sample in the same tick (other fields unchanged), the call emits
exactly one (Z) event yet stores both new trigger values; consequently a
later tick carrying the same sample emits no event at all — the `rz` change
is absorbed and can never produce its own Z event. -/
theorem xinput_trigger_absorption (it : Nat) (props : Nat → ObjectProperties)
    (t : Int) (st : GamepadState) (joy : DIJOYSTATE) (n : Nat) (lz rz : Int)
    (h0 : it &&& FLAG_DINPUT_MAPPER_STANDARD = 0)
    (h2 : it &&& FLAG_DINPUT_MAPPER_XINPUT ≠ 0)
    (hlz : lz ≠ st.thumb_lz) (hrz : rz ≠ st.thumb_rz) :
    (gamepad_handle_input it props t st joy n st.thumb_lx st.thumb_ly
      st.thumb_rx st.thumb_ry lz rz st.buttons st.dpad).events.length = 1
    ∧ (gamepad_handle_input it props t st joy n st.thumb_lx st.thumb_ly
        st.thumb_rx st.thumb_ry lz rz st.buttons st.dpad).st
        = { st with thumb_lz := lz, thumb_rz := rz }
    ∧ (∀ joy2 n2 t2,
        (gamepad_handle_input it props t2
          { st with thumb_lz := lz, thumb_rz := rz } joy2 n2 st.thumb_lx
          st.thumb_ly st.thumb_rx st.thumb_ry lz rz st.buttons st.dpad).events
          = []) := by
  refine ⟨?_, ?_, ?_⟩
  · simp [gamepad_handle_input, h0, h2, xin_events, hlz]
  · simp [gamepad_handle_input, h0, h2, xin_update_state, hlz]
  · intro joy2 n2 t2
    simp [gamepad_handle_input, h0, h2, xin_events]

/-- C10 (witness): previous lz=0 rz=0, new lz=10 rz=10: one event, both
stored triggers updated, and a resend of the same sample emits nothing. -/
theorem xinput_trigger_absorption_witness :
    (gamepad_handle_input 2 (fun _ => default_props) 0 stZero joyZero 0
      0 0 0 0 10 10 0 0).events.length = 1 ∧
    (gamepad_handle_input 2 (fun _ => default_props) 0 stZero joyZero 0
      0 0 0 0 10 10 0 0).st = ⟨0, 0, 0, 0, 0, 0, 10, 10⟩ ∧
    (gamepad_handle_input 2 (fun _ => default_props) 5 ⟨0, 0, 0, 0, 0, 0, 10, 10⟩
      joyZero 7 0 0 0 0 10 10 0 0).events = [] := by
  have h := xinput_trigger_absorption 2 (fun _ => default_props) 0 stZero
    joyZero 0 10 10 (by decide) (by decide) (by decide) (by decide)
  exact ⟨h.1, h.2.1, h.2.2 joyZero 7 5⟩

/-! ### Protocol codec and transport-facing functions

A received datagram is modelled by the `recvfrom` return value (`-1` =
`SOCKET_ERROR`, otherwise the byte count) together with the post-call
contents of the 64-byte `char` buffer, as a byte map `Nat → Int`.  The C
code reads fields through pointer casts at fixed little-endian offsets and
never consults the received length, so the decoders below read the buffer
map directly. -/

/-- SOCKET_ERROR return value of `recvfrom`/`sendto`. -/
def SOCKET_ERROR : Int := -1

/-- Unsigned byte value at offset `k`. -/
def byteAt (f : Nat → Int) (k : Nat) : Int := f k % 256

/-- Unsigned byte value at offset `k`, as `Nat` (used for the `char
input_type` flag bits). -/
def byteNat (f : Nat → Int) (k : Nat) : Nat := (f k % 256).toNat

/-- Signed `char` at offset `k`. -/
def i8 (f : Nat → Int) (k : Nat) : Int :=
  if byteAt f k < 128 then byteAt f k else byteAt f k - 256

/-- Signed little-endian `short` at offset `k` (pointer cast in the C). -/
def i16 (f : Nat → Int) (k : Nat) : Int :=
  if byteAt f k + 256 * byteAt f (k + 1) < 32768 then
    byteAt f k + 256 * byteAt f (k + 1)
  else byteAt f k + 256 * byteAt f (k + 1) - 65536

/-- Signed little-endian `int` at offset `k` (pointer cast in the C). -/
def i32 (f : Nat → Int) (k : Nat) : Int :=
  if byteAt f k + 256 * byteAt f (k + 1) + 65536 * byteAt f (k + 2) +
      16777216 * byteAt f (k + 3) < 2147483648 then
    byteAt f k + 256 * byteAt f (k + 1) + 65536 * byteAt f (k + 2) +
      16777216 * byteAt f (k + 3)
  else
    byteAt f k + 256 * byteAt f (k + 1) + 65536 * byteAt f (k + 2) +
      16777216 * byteAt f (k + 3) - 4294967296

/-- Embeds `gamepad_read` (gamepad.c lines 467-498).  Arguments:
`sockValid` models `server_sock != INVALID_SOCKET`, `cid` the global
`connected_gamepad_id`, `recvRes` the `recvfrom` return value, `buffer` the
buffer contents after the call.  The code checks only for `SOCKET_ERROR`,
the two header bytes, and the embedded gamepad id; the received length is
never compared against the expected 64 bytes. -/
def gamepad_read (sockValid : Bool) (cid : Int) (input_type : Nat)
    (props : Nat → ObjectProperties) (time : Int) (recvRes : Int)
    (buffer : Nat → Int) (st : GamepadState) (joy : DIJOYSTATE) (evseq : Nat) :
    HandleResult :=
  if sockValid = false then ⟨st, joy, evseq, [], false⟩
  else if recvRes = SOCKET_ERROR then ⟨st, joy, evseq, [], false⟩
  else if i8 buffer 0 = REQUEST_CODE_GET_GAMEPAD_STATE ∧ i8 buffer 1 = 1 then
    if i32 buffer 2 ≠ cid then ⟨st, joy, evseq, [], false⟩
    else
      gamepad_handle_input input_type props time st joy evseq
        (i16 buffer 9) (i16 buffer 11) (i16 buffer 13) (i16 buffer 15)
        (byteAt buffer 17) (byteAt buffer 18) (i16 buffer 6) (i8 buffer 8)
  else ⟨st, joy, evseq, [], false⟩

/-- Result of `get_gamepad_request` (lines 148-191): success flag, the new
values of the globals `connected_gamepad_id` and `input_type`, the name
bytes `memcpy`ed into the caller's `gamepad_name` array, and
`name_written` — the total number of bytes written into that array (the
`name_len` bytes of the `memcpy` plus the NUL terminator stored at
`gamepad_name[name_len]`); the destination is a fixed `char[64]` and the
source length is taken from the wire without any bound check. -/
structure GetGamepadResult where
  ok : Bool
  connected_gamepad_id : Int
  input_type : Nat
  name_bytes : Option (List Int)
  name_written : Int
deriving Repr

/-- Embeds `get_gamepad_request`.  `notify` only selects byte 2 of the
outgoing request (line 161) and does not affect the result; `wantName`
models `gamepad_name != NULL`; `sendOk` the `sendto` result, `recvRes` and
`buffer` the `recvfrom` result.  On `gamepad_id == 0` the global id is
cleared (line 171); on a nonzero id the globals are written (lines 175-176)
even when the DINPUT capability test then fails (lines 177-180, which zero
only the local variable). -/
def get_gamepad_request (notify wantName sendOk : Bool) (recvRes : Int)
    (buffer : Nat → Int) (id0 : Int) (it0 : Nat) : GetGamepadResult :=
  if sendOk = false then ⟨false, id0, it0, none, 0⟩
  else if recvRes = SOCKET_ERROR ∨ i8 buffer 0 ≠ REQUEST_CODE_GET_GAMEPAD then
    ⟨false, id0, it0, none, 0⟩
  else if i32 buffer 1 = 0 then ⟨false, 0, it0, none, 0⟩
  else if byteNat buffer 5 &&& FLAG_INPUT_TYPE_DINPUT = 0 then
    ⟨false, i32 buffer 1, byteNat buffer 5, none, 0⟩
  else if wantName then
    ⟨true, i32 buffer 1, byteNat buffer 5,
     some ((List.range (i32 buffer 6).toNat).map fun j => buffer (10 + j)),
     i32 buffer 6 + 1⟩
  else ⟨true, i32 buffer 1, byteNat buffer 5, none, 0⟩

/-- `DI_OK`. -/
def DI_OK : Int := 0

/-- `DIERR_INPUTLOST` (platform HRESULT constant
`0x8007001E`); the single failure code `gamepad_enum_device` returns. -/
def DIERR_INPUTLOST : Int := 0x8007001E

/-- Embeds the outcome of `gamepad_enum_device` (lines 418-441):
`DIERR_INPUTLOST` when socket creation fails or `get_gamepad_request`
fails — whatever the reason — and `DI_OK` otherwise (line 425; the `||` is
short-circuiting, so a socket failure skips the request). -/
def gamepad_enum_device (socketOk sendOk : Bool) (recvRes : Int)
    (buffer : Nat → Int) (id0 : Int) (it0 : Nat) : Int × GetGamepadResult :=
  if socketOk = false then (DIERR_INPUTLOST, ⟨false, id0, it0, none, 0⟩)
  else
    let r := get_gamepad_request false true sendOk recvRes buffer id0 it0
    if r.ok = false then (DIERR_INPUTLOST, r) else (DI_OK, r)

/-! ### Claim C6 -/

/-- Live-state datagram with header bytes 9,1, embedded id 1 and buttons
bitmask 1, all other bytes zero. -/
def cexBuf : Nat → Int := fun k =>
  if k = 0 then 9 else if k = 1 then 1 else if k = 2 then 1
  else if k = 6 then 1 else 0

/-- C6 (counterexample): a datagram whose received length is 10 — not the
expected 64 — but whose header bytes, embedded id and buttons decode
validly is processed, mutating the stored sample and emitting events:
`gamepad_read` never checks the received length, so "received length does
not equal the expected 64 bytes → dropped with no effect" is false. -/
theorem read_length_claim_false :
    (10 : Int) ≠ 64 ∧
    (gamepad_read true 1 1 (fun _ => default_props) 0 10 cexBuf stZero joyZero
      0).events ≠ [] ∧
    (gamepad_read true 1 1 (fun _ => default_props) 0 10 cexBuf stZero joyZero
      0).st ≠ stZero := by
  decide

/-- C6 (amended): a live-state message is dropped with no effect on the
stored sample, the calibrated snapshot, the sequence counter or the event
stream when the receive reports `SOCKET_ERROR` (including timeouts) or the
socket is closed, when the header bytes are not `9, 1`, or when the
embedded gamepad id differs from the active connection id.  The received
length is not otherwise validated. -/
theorem read_drop_no_effect (sockValid : Bool) (cid : Int) (it : Nat)
    (props : Nat → ObjectProperties) (t recvRes : Int) (buffer : Nat → Int)
    (st : GamepadState) (joy : DIJOYSTATE) (n : Nat)
    (h : sockValid = false ∨ recvRes = SOCKET_ERROR ∨
      ¬(i8 buffer 0 = REQUEST_CODE_GET_GAMEPAD_STATE ∧ i8 buffer 1 = 1) ∨
      i32 buffer 2 ≠ cid) :
    (gamepad_read sockValid cid it props t recvRes buffer st joy n).st = st
    ∧ (gamepad_read sockValid cid it props t recvRes buffer st joy n).joy = joy
    ∧ (gamepad_read sockValid cid it props t recvRes buffer st joy n).events = []
    ∧ (gamepad_read sockValid cid it props t recvRes buffer st joy n).evseq = n := by
  simp only [gamepad_read]
  rcases h with h | h | h | h <;> split_ifs <;> simp_all

/-- C6 (witness): a timed-out receive (`SOCKET_ERROR`) leaves everything
unchanged, as does a valid-looking datagram carrying a foreign gamepad
id. -/
theorem read_drop_no_effect_witness :
    (gamepad_read true 1 1 (fun _ => default_props) 0 SOCKET_ERROR cexBuf
      stZero joyZero 3).events = [] ∧
    (gamepad_read true 1 1 (fun _ => default_props) 0 SOCKET_ERROR cexBuf
      stZero joyZero 3).evseq = 3 ∧
    (gamepad_read true 7 1 (fun _ => default_props) 0 64 cexBuf
      stZero joyZero 3).events = [] ∧
    (gamepad_read true 7 1 (fun _ => default_props) 0 64 cexBuf
      stZero joyZero 3).st = stZero := by
  have h1 := read_drop_no_effect true 1 1 (fun _ => default_props) 0
    SOCKET_ERROR cexBuf stZero joyZero 3 (Or.inr (Or.inl rfl))
  have h2 := read_drop_no_effect true 7 1 (fun _ => default_props) 0
    64 cexBuf stZero joyZero 3 (Or.inr (Or.inr (Or.inr (by decide))))
  exact ⟨h1.2.2.1, h1.2.2.2, h2.2.2.1, h2.1⟩

/-! ### Claim C7 -/

/-- Discovery response carrying gamepad id 0 (no controller). -/
def bufId0 : Nat → Int := fun k => if k = 0 then 8 else 0

/-- Discovery response carrying id 1 whose capability byte is 4
(`FLAG_INPUT_TYPE_XINPUT` only — the transport-is-dinput bit unset). -/
def bufNoDinput : Nat → Int := fun k =>
  if k = 0 then 8 else if k = 1 then 1 else if k = 5 then 4 else 0

/-- C7 (counterexample): the id-0 "no controller" outcome and the
capability-mismatch outcome are the very same `DIERR_INPUTLOST` that a
transport failure (socket creation failure, send failure) produces — there
is no distinct "not found" outcome. -/
theorem discovery_outcome_claim_false :
    i32 bufId0 1 = 0 ∧
    (gamepad_enum_device true true 64 bufId0 0 2).1 = DIERR_INPUTLOST ∧
    (gamepad_enum_device true true 64 bufNoDinput 0 2).1 = DIERR_INPUTLOST ∧
    (gamepad_enum_device false true 64 bufId0 0 2).1 = DIERR_INPUTLOST ∧
    (gamepad_enum_device true false 64 bufId0 0 2).1 = DIERR_INPUTLOST ∧
    (gamepad_enum_device true true 64 bufId0 0 2).1 =
      (gamepad_enum_device false true 64 bufId0 0 2).1 := by
  decide

/-- C7 (amended): for every discovery response carrying gamepad id 0, and
for every response carrying a nonzero id with the transport-is-dinput
capability bit unset, discovery fails — but with the same
`DIERR_INPUTLOST` outcome that a transport failure (socket creation or
send error) reports; the failure kinds are not distinguished. -/
theorem discovery_failure_outcomes :
    (∀ recvRes buffer id0 it0, recvRes ≠ SOCKET_ERROR →
      i8 buffer 0 = REQUEST_CODE_GET_GAMEPAD → i32 buffer 1 = 0 →
      (gamepad_enum_device true true recvRes buffer id0 it0).1 = DIERR_INPUTLOST)
    ∧ (∀ recvRes buffer id0 it0, recvRes ≠ SOCKET_ERROR →
      i8 buffer 0 = REQUEST_CODE_GET_GAMEPAD → i32 buffer 1 ≠ 0 →
      byteNat buffer 5 &&& FLAG_INPUT_TYPE_DINPUT = 0 →
      (gamepad_enum_device true true recvRes buffer id0 it0).1 = DIERR_INPUTLOST)
    ∧ (∀ recvRes buffer id0 it0,
      (gamepad_enum_device false true recvRes buffer id0 it0).1 = DIERR_INPUTLOST)
    ∧ (∀ recvRes buffer id0 it0,
      (gamepad_enum_device true false recvRes buffer id0 it0).1 = DIERR_INPUTLOST) := by
  refine ⟨?_, ?_, ?_, ?_⟩
  · intro recvRes buffer id0 it0 hres h8 hid
    simp [gamepad_enum_device, get_gamepad_request, hres, h8, hid]
  · intro recvRes buffer id0 it0 hres h8 hid hcap
    simp [gamepad_enum_device, get_gamepad_request, hres, h8, hid, hcap]
  · intro recvRes buffer id0 it0
    simp [gamepad_enum_device]
  · intro recvRes buffer id0 it0
    simp [gamepad_enum_device, get_gamepad_request]

/-- C7 (witness): the amended theorem evaluated on the id-0 response and on
the DINPUT-bit-unset response. -/
theorem discovery_failure_outcomes_witness :
    (gamepad_enum_device true true 64 bufId0 5 2).1 = DIERR_INPUTLOST ∧
    (gamepad_enum_device true true 64 bufNoDinput 5 2).1 = DIERR_INPUTLOST := by
  exact ⟨discovery_failure_outcomes.1 64 bufId0 5 2 (by decide) (by decide)
      (by decide),
    discovery_failure_outcomes.2.1 64 bufNoDinput 5 2 (by decide) (by decide)
      (by decide) (by decide)⟩

/-! ### Claim C9 -/

/-- Discovery response with id 1, capability byte 9
(`FLAG_DINPUT_MAPPER_STANDARD | FLAG_INPUT_TYPE_DINPUT`) and `name_len`
field 100. -/
def bufLongName : Nat → Int := fun k =>
  if k = 0 then 8 else if k = 1 then 1 else if k = 5 then 9
  else if k = 6 then 100 else 0

/-- C9 (code bug): the discovery path copies `name_len` bytes plus a NUL
terminator into the fixed 64-byte `gamepad_name` array with no bound
check: a response whose `name_len` field is 100 makes the successful
request write 101 bytes, exceeding the destination's capacity of 64 — the
claimed truncation does not exist in the code. -/
theorem get_gamepad_name_overflow :
    (get_gamepad_request false true true 64 bufLongName 0 2).ok = true ∧
    (get_gamepad_request false true true 64 bufLongName 0 2).name_written = 101 ∧
    ¬((get_gamepad_request false true true 64 bufLongName 0 2).name_written ≤ 64) := by
  decide

end Gamepad
